import Mathlib

/-!
Shallow embedding of the OAuth credential and session state management
subsystem of google_workspace_mcp (src/auth/redis_state_store.py,
src/auth/google_auth.py, src/auth/scopes.py).

Modelling conventions:
* The Redis keyspace is one map from String keys to stored values.  The
  source stores JSON strings; serialization via json.dumps of a
  credentials dict always succeeds and json.loads inverts it, so a stored
  string is modelled as the parsed payload (`RVal.credsJson`,
  `RVal.stateData`) together with a `RVal.malformed` constructor standing
  for any stored string on which deserialization fails.
* Python falsy optional strings (None or "") are modelled as `none`.
* Redis connectivity is environmental: each store operation takes an
  `REnv` telling whether a connection attempt made at that moment would
  succeed (`connOk`) and whether the Redis round trip itself succeeds
  without a RedisError (`opOk`).  The lazy `client` property of
  `RedisStateStore` is `RedisStateStore.clientGet`.
* Timestamps are integers; `Credentials.expired` holds once the
  (skew-adjusted) expiry deadline is not in the future, matching
  google.auth's `expired`/`valid` properties.
* Absent scope lists are read as the empty list.
-/

/-- google.oauth2.credentials.Credentials, restricted to the attributes this
subsystem reads and persists (the fields of creds_data in
save_credentials_to_file / load_credentials_from_file). -/
structure Credentials where
  token : Option String
  refresh_token : Option String
  token_uri : Option String
  client_id : Option String
  client_secret : Option String
  scopes : List String
  expiry : Option Int
deriving Repr, DecidableEq

/-- A value stored in the Redis keyspace: a serialized OAuth-state dict, a
serialized credentials dict, or a string that fails JSON deserialization. -/
inductive RVal where
  | stateData (session_id client_id client_secret : Option String)
  | credsJson (c : Credentials)
  | malformed
deriving Repr, DecidableEq

/-- Environment of one RedisStateStore method call: does a connection
attempt made now succeed, and does the Redis operation itself complete
without raising RedisError. -/
structure REnv where
  connOk : Bool
  opOk : Bool
deriving Repr, DecidableEq

/-- Update a functional map at one key. -/
def mapSet {α : Type} (m : String → Option α) (k : String) (v : α) :
    String → Option α :=
  fun q => if q = k then some v else m q

/-- Delete one key from a functional map. -/
def mapDel {α : Type} (m : String → Option α) (k : String) :
    String → Option α :=
  fun q => if q = k then none else m q

/-- Key layout of RedisStateStore.store_oauth_state. -/
def oauthStateKey (state : String) : String := "oauth_state:" ++ state

/-- Key layout of RedisStateStore.store_session_credentials. -/
def sessionCredsKey (session_id : String) : String :=
  "session_creds:" ++ session_id

/-- Key layout of RedisStateStore.store_user_credentials: the compound
(tenant client_id, user_email) key giving tenant isolation. -/
def userCredsKey (client_id user_email : String) : String :=
  "user_creds:" ++ client_id ++ ":" ++ user_email

/-- State of a RedisStateStore instance: the keyspace, whether _client is a
live handle, and the enabled flag. -/
structure RedisStateStore where
  data : String → Option RVal
  hasClient : Bool
  enabled : Bool

/-- The lazy client property (redis_state_store.py lines 36-54).  Returns
whether a usable client was obtained, the updated store state, and whether
a connection attempt was made.  A failed attempt clears `enabled`
permanently; once `enabled` is false and no client is cached, no further
attempt happens. -/
def RedisStateStore.clientGet (s : RedisStateStore) (connOk : Bool) :
    Bool × RedisStateStore × Bool :=
  if s.hasClient then (true, s, false)
  else if s.enabled then
    if connOk then (true, { s with hasClient := true }, true)
    else (false, { s with enabled := false }, true)
  else (false, s, false)

/-- RedisStateStore.store_oauth_state: setex of the state dict under
oauth_state:{state}; False when no client or on RedisError. -/
def RedisStateStore.store_oauth_state (s : RedisStateStore) (env : REnv)
    (state : String) (session_id client_id client_secret : Option String) :
    Bool × RedisStateStore :=
  let r := s.clientGet env.connOk
  if r.1 then
    if env.opOk then
      let v := RVal.stateData session_id client_id client_secret
      (true, { r.2.1 with data := mapSet r.2.1.data (oauthStateKey state) v })
    else (false, r.2.1)
  else (false, r.2.1)

/-- RedisStateStore.get_oauth_state: atomic pipeline get+delete of
oauth_state:{state}, then json.loads.  The pipeline deletes the key even
when the payload then fails to parse (the JSONDecodeError is caught after
execute() has run).  A well-formed JSON payload that is not a state dict
would parse and yield absent fields, so it maps to the all-none triple. -/
def RedisStateStore.get_oauth_state (s : RedisStateStore) (env : REnv)
    (state : String) :
    Option (Option String × Option String × Option String) × RedisStateStore :=
  let r := s.clientGet env.connOk
  if r.1 then
    if env.opOk then
      let s1 := r.2.1
      let res := s1.data (oauthStateKey state)
      let s2 := { s1 with data := mapDel s1.data (oauthStateKey state) }
      match res with
      | some (RVal.stateData a b c) => (some (a, b, c), s2)
      | some (RVal.credsJson _) => (some (none, none, none), s2)
      | some RVal.malformed => (none, s2)
      | none => (none, s2)
    else (none, r.2.1)
  else (none, r.2.1)

/-- RedisStateStore.store_session_credentials: setex of the credentials
JSON under session_creds:{session_id}. -/
def RedisStateStore.store_session_credentials (s : RedisStateStore)
    (env : REnv) (session_id : String) (credentials_json : RVal) :
    Bool × RedisStateStore :=
  let r := s.clientGet env.connOk
  if r.1 then
    if env.opOk then
      let d := mapSet r.2.1.data (sessionCredsKey session_id) credentials_json
      (true, { r.2.1 with data := d })
    else (false, r.2.1)
  else (false, r.2.1)

/-- RedisStateStore.get_session_credentials: get of
session_creds:{session_id}; on a hit the TTL is refreshed (no change to
the stored value). -/
def RedisStateStore.get_session_credentials (s : RedisStateStore)
    (env : REnv) (session_id : String) : Option RVal × RedisStateStore :=
  let r := s.clientGet env.connOk
  if r.1 then
    if env.opOk then (r.2.1.data (sessionCredsKey session_id), r.2.1)
    else (none, r.2.1)
  else (none, r.2.1)

/-- RedisStateStore.delete_session_credentials. -/
def RedisStateStore.delete_session_credentials (s : RedisStateStore)
    (env : REnv) (session_id : String) : Bool × RedisStateStore :=
  let r := s.clientGet env.connOk
  if r.1 then
    if env.opOk then
      ((r.2.1.data (sessionCredsKey session_id)).isSome,
       { r.2.1 with data := mapDel r.2.1.data (sessionCredsKey session_id) })
    else (false, r.2.1)
  else (false, r.2.1)

/-- RedisStateStore.store_user_credentials: setex of the credentials JSON
under the tenant-isolated key user_creds:{client_id}:{user_email}. -/
def RedisStateStore.store_user_credentials (s : RedisStateStore)
    (env : REnv) (user_email client_id : String) (credentials_json : RVal) :
    Bool × RedisStateStore :=
  let r := s.clientGet env.connOk
  if r.1 then
    if env.opOk then
      let d := mapSet r.2.1.data (userCredsKey client_id user_email) credentials_json
      (true, { r.2.1 with data := d })
    else (false, r.2.1)
  else (false, r.2.1)

/-- RedisStateStore.get_user_credentials: get of
user_creds:{client_id}:{user_email}; on a hit the TTL is refreshed (no
change to the stored value). -/
def RedisStateStore.get_user_credentials (s : RedisStateStore) (env : REnv)
    (user_email client_id : String) : Option RVal × RedisStateStore :=
  let r := s.clientGet env.connOk
  if r.1 then
    if env.opOk then (r.2.1.data (userCredsKey client_id user_email), r.2.1)
    else (none, r.2.1)
  else (none, r.2.1)

/-- RedisStateStore.delete_user_credentials. -/
def RedisStateStore.delete_user_credentials (s : RedisStateStore)
    (env : REnv) (user_email client_id : String) : Bool × RedisStateStore :=
  let r := s.clientGet env.connOk
  if r.1 then
    if env.opOk then
      ((r.2.1.data (userCredsKey client_id user_email)).isSome,
       { r.2.1 with data := mapDel r.2.1.data (userCredsKey client_id user_email) })
    else (false, r.2.1)
  else (false, r.2.1)

/-- auth.scopes.OAuthStateInfo. -/
structure OAuthStateInfo where
  session_id : Option String
  client_id : Option String
  client_secret : Option String
deriving Repr, DecidableEq

/-- The module-level mutable state this subsystem touches: the global
RedisStateStore instance, _SESSION_CREDENTIALS_CACHE (google_auth.py),
OAUTH_STATE_TO_SESSION_INFO_MAP and OAUTH_STATE_TO_SESSION_ID_MAP
(scopes.py). -/
structure GlobalState where
  redis : RedisStateStore
  sessionCache : String → Option Credentials
  stateInfoMap : String → Option OAuthStateInfo
  stateIdMap : String → Option String

/-- auth.scopes.store_oauth_state (scopes.py lines 138-167): try the Redis
store; on failure, fall back to the in-memory OAUTH_STATE_TO_SESSION_INFO_MAP
and, when a session id is present, also to the legacy
OAUTH_STATE_TO_SESSION_ID_MAP.  _redis_available is true in this build
(the import succeeds). -/
def store_oauth_state (env : REnv) (state : String)
    (session_id client_id client_secret : Option String)
    (st : GlobalState) : GlobalState :=
  let r := st.redis.store_oauth_state env state session_id client_id client_secret
  let st1 := { st with redis := r.2 }
  if r.1 then st1
  else
    let info : OAuthStateInfo := ⟨session_id, client_id, client_secret⟩
    let st2 := { st1 with stateInfoMap := mapSet st1.stateInfoMap state info }
    match session_id with
    | some sid => { st2 with stateIdMap := mapSet st2.stateIdMap state sid }
    | none => st2

/-- auth.scopes.get_oauth_state (scopes.py lines 170-206): try the Redis
atomic get+delete; then pop the in-memory info map; then pop the legacy
session-id map. -/
def get_oauth_state (env : REnv) (state : String) (st : GlobalState) :
    Option OAuthStateInfo × GlobalState :=
  let r := st.redis.get_oauth_state env state
  let st1 := { st with redis := r.2 }
  match r.1 with
  | some (a, b, c) => (some ⟨a, b, c⟩, st1)
  | none =>
    match st1.stateInfoMap state with
    | some info =>
        (some info, { st1 with stateInfoMap := mapDel st1.stateInfoMap state })
    | none =>
      match st1.stateIdMap state with
      | some sid =>
          (some ⟨some sid, none, none⟩,
           { st1 with stateIdMap := mapDel st1.stateIdMap state })
      | none => (none, st1)

/-- Deserialization of a stored credentials string followed by the
Credentials(...) construction (google_auth.py lines 185-206 and 225-244).
A malformed string raises json.JSONDecodeError, giving no credentials.
An expiry written by isoformat always parses back. -/
def parse_credentials : RVal → Option Credentials
  | RVal.credsJson c => some c
  | RVal.malformed => none
  | RVal.stateData _ _ _ => some ⟨none, none, none, none, none, [], none⟩

/-- google_auth.save_credentials_to_file (lines 113-141): with no
client_id it logs an error and returns without writing anywhere;
otherwise it serializes the credential and stores it under the
(credentials.client_id, user_google_email) compound key. -/
def save_credentials_to_file (env : REnv) (user_google_email : String)
    (credentials : Credentials) (st : GlobalState) : GlobalState :=
  match credentials.client_id with
  | none => st
  | some cid =>
    let r := st.redis.store_user_credentials env user_google_email cid
      (RVal.credsJson credentials)
    { st with redis := r.2 }

/-- google_auth.save_credentials_to_session (lines 144-162): try Redis;
on failure store the object in the in-memory session cache. -/
def save_credentials_to_session (env : REnv) (session_id : String)
    (credentials : Credentials) (st : GlobalState) : GlobalState :=
  let r := st.redis.store_session_credentials env session_id
    (RVal.credsJson credentials)
  let st1 := { st with redis := r.2 }
  if r.1 then st1
  else { st1 with sessionCache := mapSet st1.sessionCache session_id credentials }

/-- google_auth.load_credentials_from_file (lines 165-215): without a
client_id the load returns None at once; otherwise the tenant-isolated
Redis entry is fetched and deserialized, a parse failure yielding None
(the entry is left in place). -/
def load_credentials_from_file (env : REnv) (user_google_email : String)
    (client_id : Option String) (st : GlobalState) :
    Option Credentials × GlobalState :=
  match client_id with
  | none => (none, st)
  | some cid =>
    let r := st.redis.get_user_credentials env user_google_email cid
    let st1 := { st with redis := r.2 }
    match r.1 with
    | none => (none, st1)
    | some v => (parse_credentials v, st1)

/-- google_auth.load_credentials_from_session (lines 218-262): try Redis;
when the entry is missing or fails to parse, fall back to the in-memory
session cache. -/
def load_credentials_from_session (env : REnv) (session_id : String)
    (st : GlobalState) : Option Credentials × GlobalState :=
  let r := st.redis.get_session_credentials env session_id
  let st1 := { st with redis := r.2 }
  match r.1 with
  | some v =>
    match parse_credentials v with
    | some c => (some c, st1)
    | none => (st1.sessionCache session_id, st1)
  | none => (st1.sessionCache session_id, st1)

/-- Outcome of the Authorization Provider's refresh call
(credentials.refresh(Request()) in google_auth.py line 780): success with
a fresh access token and expiry, RefreshError (token revoked/expired), or
any other exception (for example a transient network fault). -/
inductive RefreshOutcome where
  | success (newToken : String) (newExpiry : Option Int)
  | rejected
  | transientFailure
deriving Repr, DecidableEq

/-- google.auth credentials.expired: the skew-adjusted expiry deadline is
not in the future; a credential with no expiry never counts as expired. -/
def Credentials.expired (c : Credentials) (now : Int) : Bool :=
  match c.expiry with
  | some e => decide (e ≤ now)
  | none => false

/-- google.auth credentials.valid: a token is present and not expired. -/
def Credentials.valid (c : Credentials) (now : Int) : Bool :=
  c.token.isSome && !(c.expired now)

/-- The scope-sufficiency test of get_credentials (google_auth.py line
751): all(scope in credentials.scopes for scope in required_scopes). -/
def scope_check (required_scopes : List String) (c : Credentials) : Bool :=
  required_scopes.all (fun s => c.scopes.contains s)

/-- The validity/refresh decision tail of get_credentials (google_auth.py
lines 761-809), entered once the scope check passed: return a valid
credential as is; refresh an expired credential that has a refresh token
(persisting the result identity-scoped when the email is known and
session-scoped when a session is active), with RefreshError and any other
refresh exception both returning None; otherwise None. -/
def credentials_validity_phase (c : Credentials) (now : Int)
    (refresh_outcome : RefreshOutcome) (client_secrets_path_present : Bool)
    (user_google_email : Option String) (session_id : Option String)
    (envSaveFile envSaveSess : REnv) (st : GlobalState) :
    Option Credentials × GlobalState :=
  if c.valid now then (some c, st)
  else if c.expired now && c.refresh_token.isSome then
    if client_secrets_path_present then
      match refresh_outcome with
      | RefreshOutcome.success tok exp =>
        let c1 := { c with token := some tok, expiry := exp }
        let st1 :=
          match user_google_email with
          | some email => save_credentials_to_file envSaveFile email c1 st
          | none => st
        let st2 :=
          match session_id with
          | some sid => save_credentials_to_session envSaveSess sid c1 st1
          | none => st1
        (some c1, st2)
      | RefreshOutcome.rejected => (none, st)
      | RefreshOutcome.transientFailure => (none, st)
    else (none, st)
  else (none, st)

/-- The shared checking tail of get_credentials (google_auth.py lines
747-809) applied to a found credential: scope check, then validity and
refresh handling. -/
def credential_check_phase (c : Credentials) (required_scopes : List String)
    (now : Int) (refresh_outcome : RefreshOutcome)
    (client_secrets_path_present : Bool) (user_google_email : Option String)
    (session_id : Option String) (envSaveFile envSaveSess : REnv)
    (st : GlobalState) : Option Credentials × GlobalState :=
  if scope_check required_scopes c then
    credentials_validity_phase c now refresh_outcome
      client_secrets_path_present user_google_email session_id
      envSaveFile envSaveSess st
  else (none, st)

/-- google_auth.get_credentials (lines 656-809) in the multi-tenant path
(MCP_SINGLE_USER_MODE unset; the single-user bypass reads credential
files from a local directory outside this subsystem's state).  Load from
the session cache when a session id is supplied; otherwise load the
tenant-isolated identity entry when both the email and the tenant client
id are supplied, promoting a hit into the session cache; if nothing is
found return None; otherwise run the scope and validity checks.  Each
potential Redis interaction carries its own environment. -/
def get_credentials (user_google_email : Option String)
    (required_scopes : List String) (client_secrets_path_present : Bool)
    (session_id : Option String) (provided_client_id : Option String)
    (now : Int) (refresh_outcome : RefreshOutcome)
    (envSess envFile envPromote envSaveFile envSaveSess : REnv)
    (st : GlobalState) : Option Credentials × GlobalState :=
  let sessLoad :=
    match session_id with
    | some sid => load_credentials_from_session envSess sid st
    | none => (none, st)
  match sessLoad with
  | (some c, st1) =>
    credential_check_phase c required_scopes now refresh_outcome
      client_secrets_path_present user_google_email session_id
      envSaveFile envSaveSess st1
  | (none, st1) =>
    match user_google_email, provided_client_id with
    | some email, some cid =>
      let fileLoad := load_credentials_from_file envFile email (some cid) st1
      match fileLoad with
      | (some c, st2) =>
        let st3 :=
          match session_id with
          | some sid => save_credentials_to_session envPromote sid c st2
          | none => st2
        credential_check_phase c required_scopes now refresh_outcome
          client_secrets_path_present user_google_email session_id
          envSaveFile envSaveSess st3
      | (none, st2) => (none, st2)
    | _, _ => (none, st1)

/-- Right cancellation of String append. -/
theorem str_append_cancel_right (a b c : String) (h : a ++ c = b ++ c) :
    a = b := by
  have h2 : a.data ++ c.data = b.data ++ c.data := by
    have h0 := congrArg String.data h
    simpa [String.data_append] using h0
  exact String.ext (List.append_cancel_right h2)

/-- Left cancellation of String append. -/
theorem str_append_cancel_left (a b c : String) (h : a ++ b = a ++ c) :
    b = c := by
  have h2 : a.data ++ b.data = a.data ++ c.data := by
    have h0 := congrArg String.data h
    simpa [String.data_append] using h0
  exact String.ext (List.append_cancel_left h2)

/-- For a fixed user email, the tenant-isolated key determines the tenant
client id. -/
theorem userCredsKey_tenant_inj (t1 t2 e : String)
    (h : userCredsKey t1 e = userCredsKey t2 e) : t1 = t2 := by
  unfold userCredsKey at h
  have h1 := str_append_cancel_right _ _ _ h
  have h2 := str_append_cancel_right _ _ _ h1
  exact str_append_cancel_left _ _ _ h2

/-- The identity-scoped and session-scoped namespaces never share a key. -/
theorem userCredsKey_ne_sessionCredsKey (t e sid : String) :
    userCredsKey t e ≠ sessionCredsKey sid := by
  intro h
  have h2 := congrArg String.data h
  simp only [userCredsKey, sessionCredsKey, String.data_append] at h2
  have h3 := congrArg List.head? h2
  simp [List.head?_append] at h3

/-- C1: Tenant isolation: an identity-scoped store under tenant t1 never
changes what an identity-scoped load supplying a distinct tenant t2 with
the same user identity returns (so t2 never observes t1's credential),
and an identity-scoped load that supplies no tenant client identifier
returns nothing. -/
theorem tenant_isolation (st : GlobalState) (env env' : REnv)
    (email : String) (c : Credentials) (t1 t2 : String)
    (hcid : c.client_id = some t1) (hne : t1 ≠ t2)
    (hcl : st.redis.hasClient = true) :
    (load_credentials_from_file env' email (some t2)
        (save_credentials_to_file env email c st)).1
      = (load_credentials_from_file env' email (some t2) st).1
    ∧ ∀ (env2 : REnv) (st2 : GlobalState) (em2 : String),
        (load_credentials_from_file env2 em2 none st2).1 = none := by
  refine ⟨?_, ?_⟩
  · have hk : userCredsKey t2 email ≠ userCredsKey t1 email := by
      intro h
      exact hne (userCredsKey_tenant_inj t1 t2 email h.symm)
    cases henv : env.opOk <;> cases henv' : env'.opOk <;>
      cases hdat : st.redis.data (userCredsKey t2 email) <;>
      simp [save_credentials_to_file, load_credentials_from_file,
        RedisStateStore.store_user_credentials,
        RedisStateStore.get_user_credentials,
        RedisStateStore.clientGet, hcid, hcl, henv, henv', mapSet, hk, hdat]
  · intro env2 st2 em2
    simp [load_credentials_from_file]

/-- A global state with an empty keyspace and a connected durable store. -/
def emptyStateConnected : GlobalState :=
  ⟨⟨fun _ => none, true, true⟩, fun _ => none, fun _ => none, fun _ => none⟩

/-- A global state with an empty keyspace whose durable tier has been
permanently disabled by a failed connection attempt. -/
def emptyStateDisabled : GlobalState :=
  ⟨⟨fun _ => none, false, false⟩, fun _ => none, fun _ => none, fun _ => none⟩

/-- An environment in which connection attempts and Redis round trips
both succeed. -/
def envOk : REnv := ⟨true, true⟩

/-- A sample credential owned by tenant t1. -/
def sampleCredential : Credentials :=
  ⟨some "tok", some "rtok", some "uri", some "t1", some "sec", ["read"], some 100⟩

/-- Witness: tenant_isolation at a concrete state, credential and tenant
pair. -/
theorem tenant_isolation_witness :
    (load_credentials_from_file envOk "a@example.com" (some "t2")
        (save_credentials_to_file envOk "a@example.com" sampleCredential
          emptyStateConnected)).1
      = (load_credentials_from_file envOk "a@example.com" (some "t2")
          emptyStateConnected).1 :=
  (tenant_isolation emptyStateConnected envOk envOk "a@example.com"
    sampleCredential "t1" "t2" rfl (by decide) rfl).1

/-- C9: The durable-store connection is lazy: with the tier enabled and no
cached client, an operation-time attempt either caches a client or clears
the enabled flag for good; and from the disabled state every method
returns its unavailable result (false or none), leaves the store state
exactly as it was, and makes no connection attempt. -/
theorem durable_tier_permanent_disable :
    (∀ s : RedisStateStore, s.hasClient = false → s.enabled = true →
       s.clientGet true = (true, { s with hasClient := true }, true)
       ∧ s.clientGet false = (false, { s with enabled := false }, true))
    ∧ (∀ s : RedisStateStore, s.hasClient = false → s.enabled = false →
       (∀ b, s.clientGet b = (false, s, false))
       ∧ (∀ env state a b c, s.store_oauth_state env state a b c = (false, s))
       ∧ (∀ env state, s.get_oauth_state env state = (none, s))
       ∧ (∀ env sid v, s.store_session_credentials env sid v = (false, s))
       ∧ (∀ env sid, s.get_session_credentials env sid = (none, s))
       ∧ (∀ env sid, s.delete_session_credentials env sid = (false, s))
       ∧ (∀ env e cid v, s.store_user_credentials env e cid v = (false, s))
       ∧ (∀ env e cid, s.get_user_credentials env e cid = (none, s))
       ∧ (∀ env e cid, s.delete_user_credentials env e cid = (false, s))) := by
  constructor
  · intro s hc he
    constructor <;> simp [RedisStateStore.clientGet, hc, he]
  · intro s hc he
    refine ⟨?_, ?_, ?_, ?_, ?_, ?_, ?_, ?_, ?_⟩ <;> intros <;>
      simp [RedisStateStore.clientGet, hc, he,
        RedisStateStore.store_oauth_state, RedisStateStore.get_oauth_state,
        RedisStateStore.store_session_credentials,
        RedisStateStore.get_session_credentials,
        RedisStateStore.delete_session_credentials,
        RedisStateStore.store_user_credentials,
        RedisStateStore.get_user_credentials,
        RedisStateStore.delete_user_credentials]

/-- Witness: durable_tier_permanent_disable at a fresh enabled store and
at the disabled store. -/
theorem durable_tier_permanent_disable_witness :
    RedisStateStore.clientGet ⟨fun _ => none, false, true⟩ false
      = (false, ⟨fun _ => none, false, false⟩, true)
    ∧ RedisStateStore.get_user_credentials ⟨fun _ => none, false, false⟩
        envOk "a@example.com" "t1" = (none, ⟨fun _ => none, false, false⟩) :=
  ⟨(durable_tier_permanent_disable.1 ⟨fun _ => none, false, true⟩ rfl rfl).2,
   (durable_tier_permanent_disable.2 ⟨fun _ => none, false, false⟩ rfl rfl).2.2.2.2.2.2.2.1
     envOk "a@example.com" "t1"⟩

/-- Whatever the checking tail returns has passed the scope check and is
either currently valid or carries a refresh token. -/
theorem check_phase_some_inv (c c' : Credentials) (req : List String)
    (now : Int) (ro : RefreshOutcome) (csp : Bool) (ue sid : Option String)
    (e1 e2 : REnv) (st : GlobalState)
    (h : (credential_check_phase c req now ro csp ue sid e1 e2 st).1 = some c') :
    scope_check req c' = true
    ∧ (c'.valid now = true ∨ c'.refresh_token.isSome = true) := by
  unfold credential_check_phase credentials_validity_phase at h
  by_cases hs : scope_check req c
  · simp only [hs, if_true] at h
    by_cases hv : c.valid now
    · simp only [hv, if_true] at h
      have hc : c = c' := by simpa using h
      subst hc
      exact ⟨hs, Or.inl hv⟩
    · simp only [hv, if_false, Bool.false_eq_true] at h
      by_cases hr : (c.expired now && c.refresh_token.isSome) = true
      · simp only [hr, if_true] at h
        cases hcsp : csp
        · simp [hcsp] at h
        · simp only [hcsp, if_true] at h
          cases ro with
          | success tok exp =>
            simp only at h
            have hc : { c with token := some tok, expiry := exp } = c' := by
              simpa using h
            have hrt : c.refresh_token.isSome = true :=
              (Bool.and_eq_true_iff.mp hr).2
            subst hc
            refine ⟨?_, Or.inr hrt⟩
            simpa [scope_check] using hs
          | rejected => simp at h
          | transientFailure => simp at h
      · simp [hr] at h
  · simp [hs] at h

/-- Whatever get_credentials returns has passed the scope check and is
either currently valid or carries a refresh token. -/
theorem get_credentials_some_inv (ue : Option String) (req : List String)
    (csp : Bool) (sid pcid : Option String) (now : Int)
    (ro : RefreshOutcome) (a1 a2 a3 a4 a5 : REnv) (st : GlobalState)
    (c' : Credentials)
    (h : (get_credentials ue req csp sid pcid now ro a1 a2 a3 a4 a5 st).1
      = some c') :
    scope_check req c' = true
    ∧ (c'.valid now = true ∨ c'.refresh_token.isSome = true) := by
  cases sid with
  | none =>
    cases ue with
    | none => simp [get_credentials] at h
    | some email =>
      cases pcid with
      | none => simp [get_credentials] at h
      | some cid =>
        rcases hf : load_credentials_from_file a2 email (some cid) st
          with ⟨ofc, st2⟩
        cases ofc with
        | none => simp [get_credentials, hf] at h
        | some c =>
          have h2 : (credential_check_phase c req now ro csp (some email)
              none a4 a5 st2).1 = some c' := by
            simpa [get_credentials, hf] using h
          exact check_phase_some_inv _ _ _ _ _ _ _ _ _ _ _ h2
  | some s =>
    rcases hs : load_credentials_from_session a1 s st with ⟨osc, st1⟩
    cases osc with
    | some c =>
      have h2 : (credential_check_phase c req now ro csp ue (some s)
          a4 a5 st1).1 = some c' := by
        simpa [get_credentials, hs] using h
      exact check_phase_some_inv _ _ _ _ _ _ _ _ _ _ _ h2
    | none =>
      cases ue with
      | none => simp [get_credentials, hs] at h
      | some email =>
        cases pcid with
        | none => simp [get_credentials, hs] at h
        | some cid =>
          rcases hf : load_credentials_from_file a2 email (some cid) st1
            with ⟨ofc, st2⟩
          cases ofc with
          | none => simp [get_credentials, hs, hf] at h
          | some c =>
            have h2 : (credential_check_phase c req now ro csp (some email)
                (some s) a4 a5
                (save_credentials_to_session a3 s c st2)).1 = some c' := by
              simpa [get_credentials, hs, hf] using h
            exact check_phase_some_inv _ _ _ _ _ _ _ _ _ _ _ h2

/-- C3: a credential whose expiry is in the past and whose refresh token
is absent is never served: for such a credential the checking tail of
get_credentials yields None under all parameters, and get_credentials
never returns an expired credential that lacks a refresh token. -/
theorem expired_no_refresh_never_returned :
    (∀ (c : Credentials) (req : List String) (now e : Int)
       (ro : RefreshOutcome) (csp : Bool) (ue sid : Option String)
       (e1 e2 : REnv) (st : GlobalState),
       c.expiry = some e → e < now → c.refresh_token = none →
       (credential_check_phase c req now ro csp ue sid e1 e2 st).1 = none)
    ∧ (∀ (ue : Option String) (req : List String) (csp : Bool)
         (sid pcid : Option String) (now : Int) (ro : RefreshOutcome)
         (a1 a2 a3 a4 a5 : REnv) (st : GlobalState) (c : Credentials),
       (get_credentials ue req csp sid pcid now ro a1 a2 a3 a4 a5 st).1
         = some c →
       c.refresh_token = none → c.expired now = false) := by
  constructor
  · intro c req now e ro csp ue sid e1 e2 st hexp hlt hrt
    have hexpd : c.expired now = true := by
      simp only [Credentials.expired, hexp, decide_eq_true_eq]
      omega
    by_cases hsc : scope_check req c
    · simp [credential_check_phase, hsc, credentials_validity_phase,
        Credentials.valid, hexpd, hrt]
    · simp [credential_check_phase, hsc]
  · intro ue req csp sid pcid now ro a1 a2 a3 a4 a5 st c hres hrt
    rcases get_credentials_some_inv ue req csp sid pcid now ro a1 a2 a3 a4
        a5 st c hres with ⟨_, hv | hr⟩
    · unfold Credentials.valid at hv
      rcases Bool.and_eq_true_iff.mp hv with ⟨_, hne⟩
      simpa using hne
    · rw [hrt] at hr
      simp at hr

/-- Witness: the checking tail rejects a concrete expired credential with
no refresh token. -/
theorem expired_no_refresh_never_returned_witness :
    (credential_check_phase
        ⟨some "tok", none, some "uri", some "t1", some "sec", ["read"], some 0⟩
        ["read"] 5 RefreshOutcome.rejected true (some "a@example.com")
        none envOk envOk emptyStateConnected).1 = none :=
  expired_no_refresh_never_returned.1 _ ["read"] 5 0 _ true _ none envOk
    envOk emptyStateConnected rfl (by decide) rfl

/-- C4: the scope-sufficiency check: scope_check is exactly the subset
relation between required and granted scopes; its failure forces None
regardless of validity or expiry; when it holds the checking tail is
exactly the validity/refresh logic (the scope check never rejects); and
any credential get_credentials returns satisfies it. -/
theorem scope_subset_necessary_sufficient :
    (∀ (req : List String) (c : Credentials),
       scope_check req c = true ↔ ∀ s ∈ req, s ∈ c.scopes)
    ∧ (∀ (c : Credentials) (req : List String) (now : Int)
         (ro : RefreshOutcome) (csp : Bool) (ue sid : Option String)
         (e1 e2 : REnv) (st : GlobalState),
       scope_check req c = false →
       credential_check_phase c req now ro csp ue sid e1 e2 st = (none, st))
    ∧ (∀ (c : Credentials) (req : List String) (now : Int)
         (ro : RefreshOutcome) (csp : Bool) (ue sid : Option String)
         (e1 e2 : REnv) (st : GlobalState),
       scope_check req c = true →
       credential_check_phase c req now ro csp ue sid e1 e2 st
         = credentials_validity_phase c now ro csp ue sid e1 e2 st)
    ∧ (∀ (ue : Option String) (req : List String) (csp : Bool)
         (sid pcid : Option String) (now : Int) (ro : RefreshOutcome)
         (a1 a2 a3 a4 a5 : REnv) (st : GlobalState) (c : Credentials),
       (get_credentials ue req csp sid pcid now ro a1 a2 a3 a4 a5 st).1
         = some c → scope_check req c = true) := by
  refine ⟨?_, ?_, ?_, ?_⟩
  · intro req c
    simp [scope_check, List.all_eq_true]
  · intro c req now ro csp ue sid e1 e2 st hsc
    simp [credential_check_phase, hsc]
  · intro c req now ro csp ue sid e1 e2 st hsc
    simp [credential_check_phase, hsc]
  · intro ue req csp sid pcid now ro a1 a2 a3 a4 a5 st c hres
    exact (get_credentials_some_inv ue req csp sid pcid now ro a1 a2 a3 a4
      a5 st c hres).1

/-- Witness: an otherwise valid credential granted only the read scope is
rejected when read and write are required (the spec's concrete
scenario). -/
theorem scope_subset_necessary_sufficient_witness :
    credential_check_phase
      ⟨some "tok", some "rt", some "uri", some "t1", some "sec", ["read"],
        some 100⟩
      ["read", "write"] 5 RefreshOutcome.rejected true (some "a@example.com")
      none envOk envOk emptyStateConnected = (none, emptyStateConnected) :=
  scope_subset_necessary_sufficient.2.1 _ _ 5 _ true _ none envOk envOk _
    (by decide)

/-- A global state whose durable store is connected and holds one
session-scoped credential that is expired but carries a refresh token. -/
def sessionExpiredState : GlobalState :=
  ⟨⟨mapSet (fun _ => none) (sessionCredsKey "s1")
      (RVal.credsJson ⟨some "tok", some "rt", some "uri", some "t1",
        some "sec", ["read"], some 0⟩), true, true⟩,
   fun _ => none, fun _ => none, fun _ => none⟩

/-- C5 counterexample: for a concrete expired refreshable credential,
get_credentials returns None on a transient refresh failure — the very
same outcome as on refresh rejection — so no distinct RefreshFailed
outcome exists. -/
theorem transient_refresh_outcome_cex :
    (get_credentials (some "a@example.com") ["read"] true (some "s1") none
        5 RefreshOutcome.transientFailure envOk envOk envOk envOk envOk
        sessionExpiredState).1 = none
    ∧ (get_credentials (some "a@example.com") ["read"] true (some "s1")
        none 5 RefreshOutcome.rejected envOk envOk envOk envOk envOk
        sessionExpiredState).1 = none := by
  constructor <;> rfl

/-- C5 amended: when the refresh of an expired credential that has a
refresh token fails, get_credentials' checking tail returns None both for
RefreshError (revocation) and for any other exception (transient fault):
the two failures yield the same outcome and are not distinguishable from
the result. -/
theorem transient_refresh_returns_none (c : Credentials) (now : Int)
    (ue sid : Option String) (e1 e2 : REnv) (st : GlobalState)
    (hexp : c.expired now = true) (hrt : c.refresh_token.isSome = true) :
    (credentials_validity_phase c now RefreshOutcome.transientFailure true
        ue sid e1 e2 st) = (none, st)
    ∧ (credentials_validity_phase c now RefreshOutcome.rejected true
        ue sid e1 e2 st) = (none, st) := by
  have hv : c.valid now = false := by
    simp [Credentials.valid, hexp]
  constructor <;> simp [credentials_validity_phase, hv, hexp, hrt]

/-- Witness: transient_refresh_returns_none at a concrete expired
refreshable credential. -/
theorem transient_refresh_returns_none_witness :
    (credentials_validity_phase
        ⟨some "tok", some "rt", some "uri", some "t1", some "sec", ["read"],
          some 0⟩
        5 RefreshOutcome.transientFailure true (some "a@example.com") none
        envOk envOk emptyStateConnected) = (none, emptyStateConnected) :=
  (transient_refresh_returns_none
    ⟨some "tok", some "rt", some "uri", some "t1", some "sec", ["read"],
      some 0⟩
    5 (some "a@example.com") none envOk envOk emptyStateConnected
    (by decide) rfl).1

/-- A global state whose durable store is connected and holds a malformed
identity-scoped entry for ("t1", "a@example.com"). -/
def malformedUserEntryState : GlobalState :=
  ⟨⟨mapSet (fun _ => none) (userCredsKey "t1" "a@example.com")
      RVal.malformed, true, true⟩,
   fun _ => none, fun _ => none, fun _ => none⟩

/-- C6 counterexample: a malformed identity-scoped entry makes the load
return None, but the corrupt entry is NOT deleted — it is still stored
afterwards, so a second load hits the same deserialization failure. -/
theorem malformed_entry_not_deleted_cex :
    (load_credentials_from_file envOk "a@example.com" (some "t1")
        malformedUserEntryState).1 = none
    ∧ (load_credentials_from_file envOk "a@example.com" (some "t1")
        malformedUserEntryState).2.redis.data
          (userCredsKey "t1" "a@example.com") = some RVal.malformed := by
  constructor <;> rfl

/-- C6 amended: an identity-scoped entry that fails to deserialize makes
load_credentials_from_file return None, and the corrupt entry is left in
the store unchanged, so a subsequent load of the same key fails the same
way. -/
theorem malformed_load_returns_none_keeps_entry (st : GlobalState)
    (env env' : REnv) (email cid : String)
    (hm : st.redis.data (userCredsKey cid email) = some RVal.malformed)
    (hcl : st.redis.hasClient = true) :
    (load_credentials_from_file env email (some cid) st).1 = none
    ∧ (load_credentials_from_file env email (some cid) st).2.redis.data
        (userCredsKey cid email) = some RVal.malformed
    ∧ (load_credentials_from_file env' email (some cid)
        (load_credentials_from_file env email (some cid) st).2).1
      = none := by
  cases he : env.opOk <;> cases he' : env'.opOk <;>
    simp [load_credentials_from_file, RedisStateStore.get_user_credentials,
      RedisStateStore.clientGet, hcl, he, he', hm, parse_credentials]

/-- Witness: malformed_load_returns_none_keeps_entry at the concrete
malformed-entry state. -/
theorem malformed_load_returns_none_keeps_entry_witness :
    (load_credentials_from_file envOk "a@example.com" (some "t1")
        malformedUserEntryState).1 = none
    ∧ (load_credentials_from_file envOk "a@example.com" (some "t1")
        (load_credentials_from_file envOk "a@example.com" (some "t1")
          malformedUserEntryState).2).1 = none :=
  ⟨(malformed_load_returns_none_keeps_entry malformedUserEntryState envOk
      envOk "a@example.com" "t1" rfl rfl).1,
   (malformed_load_returns_none_keeps_entry malformedUserEntryState envOk
      envOk "a@example.com" "t1" rfl rfl).2.2⟩

/-- C7: round-trip: saving a credential identity-scoped and immediately
loading it with the same user identity and the credential's tenant client
id, with the durable store connected, returns a credential equal to the
stored one in every persisted field. -/
theorem store_load_round_trip (st : GlobalState) (env env' : REnv)
    (email cid : String) (c : Credentials) (hcid : c.client_id = some cid)
    (hcl : st.redis.hasClient = true) (hop : env.opOk = true)
    (hop' : env'.opOk = true) :
    (load_credentials_from_file env' email (some cid)
        (save_credentials_to_file env email c st)).1 = some c := by
  simp [save_credentials_to_file, load_credentials_from_file, hcid,
    RedisStateStore.store_user_credentials,
    RedisStateStore.get_user_credentials, RedisStateStore.clientGet,
    hcl, hop, hop', mapSet, parse_credentials]

/-- Witness: store_load_round_trip at a concrete credential and state. -/
theorem store_load_round_trip_witness :
    (load_credentials_from_file envOk "a@example.com" (some "t1")
        (save_credentials_to_file envOk "a@example.com" sampleCredential
          emptyStateConnected)).1 = some sampleCredential :=
  store_load_round_trip emptyStateConnected envOk envOk "a@example.com"
    "t1" sampleCredential rfl rfl rfl rfl

/-- C8: asymmetric fallback when the durable store is unavailable: a
session-scoped store followed by a session-scoped load still succeeds
through the in-memory session cache, while every identity-scoped load
returns None regardless of what the unreachable durable keyspace holds —
the identity-scoped namespace has no in-memory fallback tier. -/
theorem fallback_asymmetry (st : GlobalState) (e1 e2 : REnv)
    (sid : String) (c : Credentials) (hcl : st.redis.hasClient = false)
    (hc1 : e1.connOk = false) (hc2 : e2.connOk = false) :
    (load_credentials_from_session e2 sid
        (save_credentials_to_session e1 sid c st)).1 = some c
    ∧ ∀ (e3 : REnv) (email cid : String) (st' : GlobalState),
        st'.redis.hasClient = false → e3.connOk = false →
        (load_credentials_from_file e3 email (some cid) st').1 = none := by
  constructor
  · cases hen : st.redis.enabled <;>
      simp [save_credentials_to_session, load_credentials_from_session,
        RedisStateStore.store_session_credentials,
        RedisStateStore.get_session_credentials,
        RedisStateStore.clientGet, hcl, hen, hc1, hc2, mapSet]
  · intro e3 email cid st' hcl' hc3
    cases hen : st'.redis.enabled <;>
      simp [load_credentials_from_file,
        RedisStateStore.get_user_credentials,
        RedisStateStore.clientGet, hcl', hen, hc3]

/-- Witness: fallback_asymmetry with the durable tier down — the
session-scoped round trip succeeds in memory while an identity-scoped
load of a durably written entry reports nothing. -/
theorem fallback_asymmetry_witness :
    (load_credentials_from_session ⟨false, true⟩ "s1"
        (save_credentials_to_session ⟨false, true⟩ "s1" sampleCredential
          emptyStateDisabled)).1 = some sampleCredential
    ∧ (load_credentials_from_file ⟨false, true⟩ "a@example.com" (some "t1")
        ⟨⟨mapSet (fun _ => none) (userCredsKey "t1" "a@example.com")
            (RVal.credsJson sampleCredential), false, false⟩,
          fun _ => none, fun _ => none, fun _ => none⟩).1 = none :=
  ⟨(fallback_asymmetry emptyStateDisabled ⟨false, true⟩ ⟨false, true⟩ "s1"
      sampleCredential rfl rfl rfl).1,
   (fallback_asymmetry emptyStateDisabled ⟨false, true⟩ ⟨false, true⟩ "s1"
      sampleCredential rfl rfl rfl).2 ⟨false, true⟩ "a@example.com" "t1"
     ⟨⟨mapSet (fun _ => none) (userCredsKey "t1" "a@example.com")
         (RVal.credsJson sampleCredential), false, false⟩,
       fun _ => none, fun _ => none, fun _ => none⟩ rfl rfl⟩

/-- C10: an identity-scoped save of a credential with no client id returns
normally (it is a total function) and leaves the entire state unchanged;
consequently a successfully refreshed credential that lacks a client id
is returned but never persisted to the identity-scoped namespace even
though the user identity is known. -/
theorem save_without_client_id_frame :
    (∀ (env : REnv) (email : String) (c : Credentials) (st : GlobalState),
       c.client_id = none → save_credentials_to_file env email c st = st)
    ∧ (∀ (c : Credentials) (now : Int) (tok : String) (exp : Option Int)
         (email : String) (sid : Option String) (e1 e2 : REnv)
         (st : GlobalState),
       c.client_id = none → c.expired now = true →
       c.refresh_token.isSome = true →
       (credentials_validity_phase c now (RefreshOutcome.success tok exp)
           true (some email) sid e1 e2 st).1
         = some { c with token := some tok, expiry := exp }
       ∧ ∀ (t u : String),
           (credentials_validity_phase c now
               (RefreshOutcome.success tok exp) true (some email) sid e1 e2
               st).2.redis.data (userCredsKey t u)
             = st.redis.data (userCredsKey t u)) := by
  constructor
  · intro env email c st hcid
    simp [save_credentials_to_file, hcid]
  · intro c now tok exp email sid e1 e2 st hcid hexp hrt
    have hv : c.valid now = false := by
      simp [Credentials.valid, hexp]
    constructor
    · cases sid with
      | none =>
        simp [credentials_validity_phase, hv, hexp, hrt,
          save_credentials_to_file, hcid]
      | some s =>
        simp [credentials_validity_phase, hv, hexp, hrt,
          save_credentials_to_file, hcid]
    · intro t u
      cases sid with
      | none =>
        simp [credentials_validity_phase, hv, hexp, hrt,
          save_credentials_to_file, hcid]
      | some s =>
        cases hcl : st.redis.hasClient <;> cases hen : st.redis.enabled <;>
          cases hco : e2.connOk <;> cases hop : e2.opOk <;>
          simp [credentials_validity_phase, hv, hexp, hrt,
            save_credentials_to_file, hcid, save_credentials_to_session,
            RedisStateStore.store_session_credentials,
            RedisStateStore.clientGet, hcl, hen, hco, hop, mapSet,
            userCredsKey_ne_sessionCredsKey t u s]

/-- Witness: save_without_client_id_frame at a concrete credential with
no client id: the save is a no-op and the refresh-success path leaves the
identity-scoped cell of tenant t1 untouched. -/
theorem save_without_client_id_frame_witness :
    save_credentials_to_file envOk "a@example.com"
      ⟨some "tok", some "rt", some "uri", none, some "sec", ["read"],
        some 0⟩
      emptyStateConnected = emptyStateConnected
    ∧ (credentials_validity_phase
        ⟨some "tok", some "rt", some "uri", none, some "sec", ["read"],
          some 0⟩
        5 (RefreshOutcome.success "tok2" (some 99)) true
        (some "a@example.com") (some "s1") envOk envOk
        emptyStateConnected).2.redis.data
          (userCredsKey "t1" "a@example.com")
      = emptyStateConnected.redis.data (userCredsKey "t1" "a@example.com") :=
  ⟨save_without_client_id_frame.1 envOk "a@example.com" _
      emptyStateConnected rfl,
   (save_without_client_id_frame.2
      ⟨some "tok", some "rt", some "uri", none, some "sec", ["read"],
        some 0⟩
      5 "tok2" (some 99) "a@example.com" (some "s1") envOk envOk
      emptyStateConnected rfl (by decide) rfl).2 "t1" "a@example.com"⟩

/-- C2 counterexample: with the durable tier disabled, one single store of
a correlation token that carries a session id is successfully resolved
TWICE — the first resolve returns the stored tuple from the fallback map,
the second returns (session_id, none, none) from the legacy map — so the
second resolution is not NotFound. -/
theorem state_token_double_resolve_cex :
    (get_oauth_state envOk "tk"
        (store_oauth_state envOk "tk" (some "s1") (some "c") (some "x")
          emptyStateDisabled)).1
      = some ⟨some "s1", some "c", some "x"⟩
    ∧ (get_oauth_state envOk "tk"
        (get_oauth_state envOk "tk"
          (store_oauth_state envOk "tk" (some "s1") (some "c") (some "x")
            emptyStateDisabled)).2).1
      = some ⟨some "s1", none, none⟩ := by
  constructor <;> rfl

/-- C2 amended: consumption of a correlation token stored exactly once.
In the durable tier the token is consumed at most once: the first resolve
returns the stored tuple and every later resolve returns NotFound.  In
the in-memory fallback the same holds when no session id was supplied;
but when a session id was supplied, the single store writes both the
fallback map and the legacy map, so the token resolves successfully
exactly twice — the second resolve yielding (session_id, none, none) —
and only from the third resolve on is the answer NotFound. -/
theorem state_token_consumption (st : GlobalState) (tok : String) :
    (∀ (eS e1 e2 : REnv) (a b c : Option String),
       st.redis.hasClient = true → eS.opOk = true → e1.opOk = true →
       st.stateInfoMap tok = none → st.stateIdMap tok = none →
       (get_oauth_state e1 tok (store_oauth_state eS tok a b c st)).1
         = some ⟨a, b, c⟩
       ∧ (get_oauth_state e2 tok
           (get_oauth_state e1 tok
             (store_oauth_state eS tok a b c st)).2).1 = none)
    ∧ (∀ (eS e1 e2 : REnv) (b c : Option String),
       st.redis.hasClient = false → st.redis.enabled = false →
       st.stateIdMap tok = none →
       (get_oauth_state e1 tok (store_oauth_state eS tok none b c st)).1
         = some ⟨none, b, c⟩
       ∧ (get_oauth_state e2 tok
           (get_oauth_state e1 tok
             (store_oauth_state eS tok none b c st)).2).1 = none)
    ∧ (∀ (eS e1 e2 e3 : REnv) (sid : String) (b c : Option String),
       st.redis.hasClient = false → st.redis.enabled = false →
       (get_oauth_state e1 tok
           (store_oauth_state eS tok (some sid) b c st)).1
         = some ⟨some sid, b, c⟩
       ∧ (get_oauth_state e2 tok
           (get_oauth_state e1 tok
             (store_oauth_state eS tok (some sid) b c st)).2).1
         = some ⟨some sid, none, none⟩
       ∧ (get_oauth_state e3 tok
           (get_oauth_state e2 tok
             (get_oauth_state e1 tok
               (store_oauth_state eS tok (some sid) b c st)).2).2).1
         = none) := by
  refine ⟨?_, ?_, ?_⟩
  · intro eS e1 e2 a b c hcl hS h1 hInfo hId
    cases h2 : e2.opOk <;>
      simp [store_oauth_state, get_oauth_state,
        RedisStateStore.store_oauth_state, RedisStateStore.get_oauth_state,
        RedisStateStore.clientGet, hcl, hS, h1, h2, hInfo, hId, mapSet,
        mapDel]
  · intro eS e1 e2 b c hcl hen hId
    cases hcS : eS.connOk <;> cases hc1 : e1.connOk <;>
      cases hc2 : e2.connOk <;>
      simp [store_oauth_state, get_oauth_state,
        RedisStateStore.store_oauth_state, RedisStateStore.get_oauth_state,
        RedisStateStore.clientGet, hcl, hen, hcS, hc1, hc2, hId, mapSet,
        mapDel]
  · intro eS e1 e2 e3 sid b c hcl hen
    cases hcS : eS.connOk <;> cases hc1 : e1.connOk <;>
      cases hc2 : e2.connOk <;> cases hc3 : e3.connOk <;>
      simp [store_oauth_state, get_oauth_state,
        RedisStateStore.store_oauth_state, RedisStateStore.get_oauth_state,
        RedisStateStore.clientGet, hcl, hen, hcS, hc1, hc2, hc3, mapSet,
        mapDel]

/-- Witness: state_token_consumption at the connected and the disabled
concrete states. -/
theorem state_token_consumption_witness :
    (get_oauth_state envOk "tk"
        (store_oauth_state envOk "tk" (some "s1") (some "c") (some "x")
          emptyStateConnected)).1 = some ⟨some "s1", some "c", some "x"⟩
    ∧ (get_oauth_state envOk "tk"
        (get_oauth_state envOk "tk"
          (store_oauth_state envOk "tk" (some "s1") (some "c") (some "x")
            emptyStateDisabled)).2).1 = some ⟨some "s1", none, none⟩ :=
  ⟨(state_token_consumption emptyStateConnected "tk").1 envOk envOk envOk
      (some "s1") (some "c") (some "x") rfl rfl rfl rfl rfl |>.1,
   ((state_token_consumption emptyStateDisabled "tk").2.2 envOk envOk envOk
      envOk "s1" (some "c") (some "x") rfl rfl).2.1⟩
